import Mathlib

/-!
Verification development for the MAI-PAEP multi-model prompt evaluation
pipeline.

The repository ships the frontend (Next.js components under
`frontend/src/components`), the PostgreSQL schema (`database/init.sql`) and
the API documentation (`docs/API.md`).  The backend pipeline itself
(the FastAPI `submit` endpoint, the fan-out orchestrator, the provider
adapters, the response evaluator and the ranking/aggregation step) is not
part of the shipped sources; those components are modelled here from the
specification, and each such definition is marked `Modelled from the spec:`.
The chart logic of `ComparisonCharts.tsx` is embedded directly from its
source.  Scores, latencies and costs (floats in the original) are embedded
as rationals; model identifiers are strings.
-/

namespace MaiPaep

/-- Status of a single model response, as in `ai_responses.status` of
`database/init.sql` and the spec data model (`{success, error}`). -/
inductive ResponseStatus
  | success
  | error
deriving DecidableEq

/-- Failure classification of a provider call, from the spec error taxonomy
`{AuthError, RateLimited, Timeout, ProviderError, MalformedResponse}`. -/
inductive FailureKind
  | AuthError
  | RateLimited
  | Timeout
  | ProviderError
  | MalformedResponse
deriving DecidableEq

/-- ModelResponse record of the spec data model: one per requested model per
session, `error_detail` present iff `status = error`. -/
structure ModelResponse where
  model_id : String
  response_text : String
  latency : ℚ
  token_count : ℕ
  cost : ℚ
  status : ResponseStatus
  error_detail : Option FailureKind
deriving DecidableEq

/-- Known model identifiers, as listed in `docs/API.md`. -/
def knownModels : List String :=
  ["gpt-4-turbo-preview", "gpt-3.5-turbo", "claude-3-opus-20240229",
   "claude-3-sonnet-20240229", "gemini-pro", "llama-3-70b", "mistral-large-latest"]

/-- Pre-flight failures of `submit`, from the spec error taxonomy:
`ValidationError` (bad input) and `UnknownModel` (bad model id). -/
inductive SubmitError
  | ValidationError
  | UnknownModel
deriving DecidableEq

/-- Modelled from the spec: the backend `submit` endpoint validation
(`submit(prompt_text: string [10,4000] chars, selected_models: set of model
id, ...)` fails with `ValidationError` on a too short or too long prompt or
an empty model selection, and with `UnknownModel` on an unknown model id,
before any provider call).  The backend implementation is not in the shipped
sources; `docs/API.md` documents the same 10-4000 character bound. -/
def validateSubmit (prompt_text : String) (selected_models : List String) :
    Option SubmitError :=
  if prompt_text.length < 10 then some SubmitError.ValidationError
  else if 4000 < prompt_text.length then some SubmitError.ValidationError
  else if selected_models.isEmpty then some SubmitError.ValidationError
  else if selected_models.all (fun m => knownModels.contains m) then none
  else some SubmitError.UnknownModel

/-- Outcome of a single provider call, abstracting the network: either a
successful response (text, latency, token count, cost) or a classified
failure. -/
inductive ProviderOutcome
  | ok (response_text : String) (latency : ℚ) (token_count : ℕ) (cost : ℚ)
  | fail (kind : FailureKind)
deriving DecidableEq

/-- Modelled from the spec: the Provider Adapter contract
`invoke(model_id, prompt_text, options) -> ModelResponse`; a classified
failure is returned as a `status = error` ModelResponse with `error_detail`
populated, never as a raised exception.  The adapter implementations are not
in the shipped sources. -/
def invoke (model_id : String) (outcome : ProviderOutcome) : ModelResponse :=
  match outcome with
  | ProviderOutcome.ok t l tok c =>
      { model_id := model_id, response_text := t, latency := l,
        token_count := tok, cost := c, status := ResponseStatus.success,
        error_detail := none }
  | ProviderOutcome.fail k =>
      { model_id := model_id, response_text := "", latency := 0,
        token_count := 0, cost := 0, status := ResponseStatus.error,
        error_detail := some k }

/-- Modelled from the spec: the Fan-Out Orchestrator contract
`compare(prompt_text, model_ids) -> ordered sequence of ModelResponse`, one
entry per requested model id, order matching the input order.  The per-model
provider outcomes are supplied by the `outcomes` environment, so the result
shape is independent of network timing.  The orchestrator implementation is
not in the shipped sources. -/
def compare (prompt_text : String) (model_ids : List String)
    (outcomes : String → ProviderOutcome) : List ModelResponse :=
  model_ids.map (fun m => invoke m (outcomes m))

/-! Response Evaluator.  Modelled from the spec: deterministic text-level
heuristics (lexical overlap for accuracy/relevance, sentence-length
readability for clarity, absolute-claim density for hallucination risk, a
fixed weighted combination clamped to [0,100] for trust).  The evaluator
implementation is not in the shipped sources; the concrete weights are the
spec's placeholders. -/

/-- Whitespace test used by the tokenizers. -/
def isSpaceChar (c : Char) : Bool :=
  c = ' ' || c = '\n' || c = '\t'

/-- Sentence-terminator test used by the sentence splitter. -/
def isSentenceEnd (c : Char) : Bool :=
  c = '.' || c = '!' || c = '?'

/-- Splits a character list into maximal runs of non-separator characters,
dropping empty runs. -/
def splitTokens (sep : Char → Bool) : List Char → List Char → List (List Char)
  | [], acc => if acc.isEmpty then [] else [acc.reverse]
  | c :: cs, acc =>
    if sep c then
      if acc.isEmpty then splitTokens sep cs []
      else acc.reverse :: splitTokens sep cs []
    else splitTokens sep cs (c :: acc)

/-- Words of a string (whitespace-separated, empty runs dropped). -/
def wordsOf (s : String) : List (List Char) :=
  splitTokens isSpaceChar s.data []

/-- Sentences of a string (split at `.`, `!`, `?`; empty runs dropped). -/
def sentencesOf (s : String) : List (List Char) :=
  splitTokens isSentenceEnd s.data []

/-- Characters of a string with leading and trailing whitespace removed. -/
def trimmed (s : String) : List Char :=
  ((s.data.dropWhile isSpaceChar).reverse.dropWhile isSpaceChar).reverse

/-- Clamps a score into the interval `[0, 100]`. -/
def clampScore (x : ℚ) : ℚ :=
  max 0 (min 100 x)

/-- Number of words of the response that also occur in the prompt. -/
def overlapCount (prompt_words response_words : List (List Char)) : ℕ :=
  (response_words.filter (fun w => prompt_words.contains w)).length

/-- Modelled from the spec: relevance from lexical overlap between prompt
and response, bounded `[0,100]`. -/
def relevanceScore (prompt_text response_text : String) : ℚ :=
  let pw := wordsOf prompt_text
  let rw := wordsOf response_text
  if rw.length = 0 then 0
  else clampScore (100 * (overlapCount pw rw : ℚ) / (rw.length : ℚ))

/-- Modelled from the spec: accuracy from a semantic-similarity style
comparison (lexical overlap with a base offset), bounded `[0,100]`. -/
def accuracyScore (prompt_text response_text : String) : ℚ :=
  let pw := wordsOf prompt_text
  let rw := wordsOf response_text
  if rw.length = 0 then 0
  else clampScore (50 + 50 * (overlapCount pw rw : ℚ) / (rw.length : ℚ))

/-- Modelled from the spec: clarity from readability heuristics (average
sentence length); the sentence-count denominator is forced positive with
`max _ 1`, and a response that is empty after trimming scores `0` rather
than raising an error. -/
def clarityScore (response_text : String) : ℚ :=
  if trimmed response_text = [] then 0
  else
    let wc := (wordsOf response_text).length
    let sc := max (sentencesOf response_text).length 1
    clampScore (100 - 2 * ((wc : ℚ) / (sc : ℚ)))

/-- Absolute-claim marker words used by the hallucination heuristic. -/
def absoluteMarkers : List (List Char) :=
  (["always", "never", "definitely", "certainly", "guaranteed"] :
    List String).map String.data

/-- Hedging marker words used by the hallucination heuristic. -/
def hedgingMarkers : List (List Char) :=
  (["may", "might", "possibly", "perhaps", "likely"] : List String).map String.data

/-- Modelled from the spec: hallucination risk from the density of absolute
claims without hedging markers, bounded `[0,100]`, higher = riskier. -/
def hallucinationScore (response_text : String) : ℚ :=
  let rw := wordsOf response_text
  if rw.length = 0 then 0
  else
    let absolutes := (rw.filter (fun w => absoluteMarkers.contains w)).length
    let hedges := (rw.filter (fun w => hedgingMarkers.contains w)).length
    clampScore ((100 * (absolutes : ℚ) - 25 * (hedges : ℚ)) / (rw.length : ℚ))

/-- Modelled from the spec: trust as a fixed weighted combination (accuracy,
relevance, clarity positive; hallucination risk negative), clamped to
`[0,100]`. -/
def trustCombine (a r c h : ℚ) : ℚ :=
  clampScore ((40 * a + 30 * r + 30 * c - 25 * h) / 100)

/-- Per-response evaluation scores, as in `EvaluationScores` of the frontend
types and `evaluation_results` of `database/init.sql`. -/
structure EvaluationScores where
  accuracy : ℚ
  relevance : ℚ
  clarity : ℚ
  hallucination_risk : ℚ
  trust_score : ℚ
deriving DecidableEq

/-- Modelled from the spec: the Response Evaluator contract
`evaluate(prompt_text, response) -> EvaluationResult`, a pure function of
the prompt and response texts. -/
def evaluate (prompt_text response_text : String) : EvaluationScores :=
  let a := accuracyScore prompt_text response_text
  let r := relevanceScore prompt_text response_text
  let c := clarityScore response_text
  let h := hallucinationScore response_text
  { accuracy := a, relevance := r, clarity := c, hallucination_risk := h,
    trust_score := trustCombine a r c h }

/-- Responses of a session with `status = success`; only these are scored. -/
def successfulResponses (responses : List ModelResponse) : List ModelResponse :=
  responses.filter (fun r => r.status == ResponseStatus.success)

/-- Modelled from the spec: the evaluator is only called for
`status = success` ModelResponses; error responses are never scored. -/
def evaluateAll (prompt_text : String) (responses : List ModelResponse) :
    List (ModelResponse × EvaluationScores) :=
  (successfulResponses responses).map
    (fun r => (r, evaluate prompt_text r.response_text))

/-- Ranking order of the spec: trust score descending, tie-break by latency
ascending, then by model id ascending. -/
def rankRel (a b : ModelResponse × EvaluationScores) : Prop :=
  b.2.trust_score < a.2.trust_score ∨
    (a.2.trust_score = b.2.trust_score ∧
      (a.1.latency < b.1.latency ∨
        (a.1.latency = b.1.latency ∧ a.1.model_id ≤ b.1.model_id)))

instance : DecidableRel rankRel := fun a b => by
  unfold rankRel; infer_instance

theorem rankRel_total : ∀ a b, rankRel a b ∨ rankRel b a := by
  intro a b
  rcases lt_trichotomy b.2.trust_score a.2.trust_score with h | h | h
  · exact Or.inl (Or.inl h)
  · rcases lt_trichotomy a.1.latency b.1.latency with hl | hl | hl
    · exact Or.inl (Or.inr ⟨h.symm, Or.inl hl⟩)
    · rcases le_total a.1.model_id b.1.model_id with hm | hm
      · exact Or.inl (Or.inr ⟨h.symm, Or.inr ⟨hl, hm⟩⟩)
      · exact Or.inr (Or.inr ⟨h, Or.inr ⟨hl.symm, hm⟩⟩)
    · exact Or.inr (Or.inr ⟨h, Or.inl hl⟩)
  · exact Or.inr (Or.inl h)

theorem rankRel_trans : ∀ a b c, rankRel a b → rankRel b c → rankRel a c := by
  intro a b c hab hbc
  rcases hab with h1 | ⟨e1, h1⟩
  · rcases hbc with h2 | ⟨e2, _⟩
    · exact Or.inl (h2.trans h1)
    · exact Or.inl (e2 ▸ h1)
  · rcases hbc with h2 | ⟨e2, h2⟩
    · exact Or.inl (e1.symm ▸ h2)
    · refine Or.inr ⟨e1.trans e2, ?_⟩
      rcases h1 with h1 | ⟨f1, h1⟩
      · rcases h2 with h2 | ⟨f2, _⟩
        · exact Or.inl (h1.trans h2)
        · exact Or.inl (f2 ▸ h1)
      · rcases h2 with h2 | ⟨f2, h2⟩
        · exact Or.inl (f1 ▸ h2)
        · exact Or.inr ⟨f1.trans f2, h1.trans h2⟩

instance : IsTotal (ModelResponse × EvaluationScores) rankRel := ⟨rankRel_total⟩

instance : IsTrans (ModelResponse × EvaluationScores) rankRel := ⟨rankRel_trans⟩

/-- Modelled from the spec: Ranking & Aggregation sorts evaluated responses
by trust score descending, tie-break by latency ascending then model id
ascending. -/
def sortEvaluations (l : List (ModelResponse × EvaluationScores)) :
    List (ModelResponse × EvaluationScores) :=
  l.insertionSort rankRel

/-- Evaluation of one response together with its session rank and best
marker, as in `evaluation_results` of `database/init.sql`. -/
structure RankedEvaluation where
  response : ModelResponse
  scores : EvaluationScores
  rank : ℕ
  is_best : Bool
deriving DecidableEq

/-- Attaches the 1-based rank and the `is_best` marker (position 0 of the
sorted order) to one indexed evaluation. -/
def rankedOfIndexed (p : ℕ × (ModelResponse × EvaluationScores)) :
    RankedEvaluation :=
  { response := p.2.1, scores := p.2.2, rank := p.1 + 1, is_best := p.1 == 0 }

/-- Modelled from the spec: rank assignment 1..N along the sorted order,
`is_best` on rank 1. -/
def assignRanks (l : List (ModelResponse × EvaluationScores)) :
    List RankedEvaluation :=
  l.enum.map rankedOfIndexed

/-- Final comparison payload of the spec: all per-model responses, the
ranked evaluations of the successful ones, the best model (absent when no
evaluation exists), an explicit no-successful-responses marker, and the
total cost. -/
structure ComparisonResult where
  responses : List ModelResponse
  evaluations : List RankedEvaluation
  best_model : Option String
  no_successful_responses : Bool
  total_cost : ℚ

/-- Modelled from the spec: the Ranking & Aggregation contract
`aggregate(session, responses, evaluations, classification) ->
ComparisonResult`.  `is_best` is set on rank 1 only if at least one
successful evaluation exists; if all model calls failed the result carries
an explicit no-successful-responses condition and no fabricated winner. -/
def aggregate (prompt_text : String) (responses : List ModelResponse) :
    ComparisonResult :=
  { responses := responses
    evaluations := assignRanks (sortEvaluations (evaluateAll prompt_text responses))
    best_model :=
      (assignRanks (sortEvaluations (evaluateAll prompt_text responses))).head?.map
        (fun e => e.response.model_id)
    no_successful_responses :=
      (assignRanks (sortEvaluations (evaluateAll prompt_text responses))).isEmpty
    total_cost := (responses.map (fun r => r.cost)).sum }

/-- Modelled from the spec: the inbound `submit` contract; validation runs
before any provider call, then the pipeline (fan-out, evaluation,
aggregation) produces the comparison result. -/
def submit (prompt_text : String) (selected_models : List String)
    (outcomes : String → ProviderOutcome) : Except SubmitError ComparisonResult :=
  match validateSubmit prompt_text selected_models with
  | some e => Except.error e
  | none =>
      Except.ok (aggregate prompt_text (compare prompt_text selected_models outcomes))

/-! Frontend chart logic, embedded from
`frontend/src/components/ComparisonCharts.tsx`. -/

/-- Per-model response record of the frontend (`AIResponseData` in the
frontend type definitions), restricted to the fields the components read. -/
structure AIResponseData where
  model : String
  response_text : String
  response_time : ℚ
  token_count : ℕ
  cost : ℚ
  evaluation_scores : EvaluationScores
  ranking : ℕ
  is_best : Bool
deriving DecidableEq

/-- Comparator of the speed panel,
`(a, b) => a.response_time - b.response_time` in `ComparisonCharts.tsx`:
ascending response time. -/
def speedLE (a b : AIResponseData) : Prop :=
  a.response_time ≤ b.response_time

instance : DecidableRel speedLE := fun a b => by
  unfold speedLE; infer_instance

instance : IsTotal AIResponseData speedLE := ⟨fun _ _ => le_total _ _⟩

instance : IsTrans AIResponseData speedLE := ⟨fun _ _ _ => le_trans⟩

/-- Maximum response time over the list,
`Math.max(...responses.map((r) => r.response_time))` in
`ComparisonCharts.tsx` (the panel only renders a non-empty list). -/
def maxResponseTime : List AIResponseData → ℚ
  | [] => 0
  | r :: rs => (rs.map (fun x => x.response_time)).foldl max r.response_time

/-- One rendered row of the Response Time & Cost panel: the response, the
width of its bar as a fraction of the maximum response time, and whether it
carries the Fastest label. -/
structure SpeedPanelEntry where
  resp : AIResponseData
  barFraction : ℚ
  fastest : Bool

/-- Row construction of the speed panel: bar width
`(r.response_time / maxTime) * 100` percent wide, Fastest label on
`idx === 0`. -/
def speedEntryOf (m : ℚ) (p : ℕ × AIResponseData) : SpeedPanelEntry :=
  { resp := p.2, barFraction := p.2.response_time / m, fastest := p.1 == 0 }

/-- The Response Time & Cost panel of `ComparisonCharts.tsx`: responses
sorted by ascending response time, each sized against the maximum response
time, the first row labelled Fastest. -/
def speedPanel (responses : List AIResponseData) : List SpeedPanelEntry :=
  ((responses.insertionSort speedLE).enum).map
    (speedEntryOf (maxResponseTime responses))

/-! General helper lemmas about `enum`-indexed rendering, shared by the
rank-assignment and chart developments. -/

/-- Pairwise relations transfer from a list to its enumeration. -/
theorem pairwise_enum_snd {α : Type _} {S : α → α → Prop} {l : List α}
    (h : List.Pairwise S l) :
    List.Pairwise (fun p q : ℕ × α => S p.2 q.2) l.enum := by
  have h2 : List.Pairwise S (l.enum.map Prod.snd) := by rwa [List.enum_map_snd]
  exact List.pairwise_map.mp h2

/-- A position-0 flag is false on every row rendered from a positive-offset
enumeration. -/
theorem filter_map_enumFrom_eq_nil {α β : Type _} (f : ℕ × α → β)
    (flag : β → Bool) (hflag : ∀ p : ℕ × α, flag (f p) = (p.1 == 0)) :
    ∀ (l : List α) (n : ℕ), n ≠ 0 →
      ((List.enumFrom n l).map f).filter flag = []
  | [], _, _ => rfl
  | a :: as, n, hn => by
    have hrec := filter_map_enumFrom_eq_nil f flag hflag as (n + 1) (by omega)
    have hcons : List.enumFrom n (a :: as) = (n, a) :: List.enumFrom (n + 1) as := rfl
    rw [hcons, List.map_cons, List.filter_cons, hflag (n, a)]
    have hb : ((n == 0) : Bool) = false := by simpa using hn
    rw [hb]
    simpa using hrec

/-- Exactly one row of an enumeration-rendered non-empty list carries the
position-0 flag. -/
theorem filter_firstFlag_length {α β : Type _} (f : ℕ × α → β)
    (flag : β → Bool) (hflag : ∀ p : ℕ × α, flag (f p) = (p.1 == 0))
    (l : List α) (hne : l ≠ []) :
    ((l.enum.map f).filter flag).length = 1 := by
  match l, hne with
  | a :: as, _ =>
    rw [List.enum_cons, List.map_cons, List.filter_cons, hflag (0, a)]
    have hb : (((0 : ℕ) == 0) : Bool) = true := rfl
    rw [hb, filter_map_enumFrom_eq_nil f flag hflag as 1 (by omega)]
    rfl

/-- A row carrying the position-0 flag is the one rendered from the head of
the list. -/
theorem firstFlag_is_head {α β : Type _} (f : ℕ × α → β) (flag : β → Bool)
    (hflag : ∀ p : ℕ × α, flag (f p) = (p.1 == 0)) (l : List α) :
    ∀ e ∈ l.enum.map f, flag e = true → ∃ a as, l = a :: as ∧ e = f (0, a) := by
  intro e he hf
  match l with
  | [] => simp [List.enum] at he
  | a :: as =>
    rw [List.enum_cons, List.map_cons] at he
    rcases List.mem_cons.mp he with he | he
    · exact ⟨a, as, rfl, he⟩
    · rcases List.mem_map.mp he with ⟨p, hp, rfl⟩
      have h1 : 1 ≤ p.1 := List.le_fst_of_mem_enumFrom hp
      rw [hflag p] at hf
      simp only [beq_iff_eq] at hf
      omega

/-! Supporting lemmas about the pipeline. -/

/-- The model id of an adapter result is the requested model id, whatever
the provider outcome. -/
theorem invoke_model_id (m : String) (o : ProviderOutcome) :
    (invoke m o).model_id = m := by
  cases o <;> rfl

/-- Length of the ranked evaluations: one per successful response. -/
theorem aggregate_evaluations_length (prompt_text : String)
    (responses : List ModelResponse) :
    (aggregate prompt_text responses).evaluations.length =
      (successfulResponses responses).length := by
  show (assignRanks (sortEvaluations (evaluateAll prompt_text responses))).length = _
  unfold assignRanks sortEvaluations evaluateAll
  rw [List.length_map, List.enum_length, List.length_insertionSort, List.length_map]

/-- Ranks are assigned by position: 1-based, along the list order. -/
theorem assignRanks_map_rank (l : List (ModelResponse × EvaluationScores)) :
    (assignRanks l).map (fun e => e.rank) =
      (List.range l.length).map (fun i => i + 1) := by
  unfold assignRanks
  rw [List.map_map]
  have h1 : ((fun e : RankedEvaluation => e.rank) ∘ rankedOfIndexed) =
      ((fun i => i + 1) ∘ (Prod.fst : ℕ × (ModelResponse × EvaluationScores) → ℕ)) := rfl
  rw [h1, ← List.map_map, List.enum_map_fst]

/-- Clamped scores stay in `[0, 100]`. -/
theorem clampScore_bounds (x : ℚ) : 0 ≤ clampScore x ∧ clampScore x ≤ 100 := by
  unfold clampScore
  constructor
  · exact le_max_left 0 _
  · exact max_le (by norm_num) (min_le_left 100 x)

/-- Claim C1: if the prompt has fewer than 10 or more than 4000 characters,
or the model selection is empty, `submit` fails with `ValidationError`
independently of the provider outcomes (so before any provider call); and no
`ValidationError` failure occurs for a prompt inside the bounds with at
least one known model selected. -/
theorem submit_validation (prompt_text : String) (selected_models : List String)
    (outcomes : String → ProviderOutcome) :
    ((prompt_text.length < 10 ∨ 4000 < prompt_text.length ∨ selected_models = []) →
        submit prompt_text selected_models outcomes =
          Except.error SubmitError.ValidationError) ∧
    ((10 ≤ prompt_text.length ∧ prompt_text.length ≤ 4000 ∧
          ∃ m ∈ selected_models, m ∈ knownModels) →
        submit prompt_text selected_models outcomes ≠
          Except.error SubmitError.ValidationError) := by
  constructor
  · intro h
    have hv : validateSubmit prompt_text selected_models =
        some SubmitError.ValidationError := by
      unfold validateSubmit
      rcases h with h | h | h
      · rw [if_pos h]
      · rw [if_neg (by omega), if_pos h]
      · subst h
        split_ifs with h1 h2 h3
        · rfl
        · rfl
        · rfl
        · exact absurd rfl h3
        · exact absurd rfl h3
    unfold submit
    rw [hv]
  · rintro ⟨h10, h4000, m, hm, hk⟩
    have hne : selected_models.isEmpty = false := by
      rcases selected_models with _ | ⟨a, as⟩
      · exact absurd hm (List.not_mem_nil m)
      · rfl
    have hv : validateSubmit prompt_text selected_models = none ∨
        validateSubmit prompt_text selected_models = some SubmitError.UnknownModel := by
      unfold validateSubmit
      rw [if_neg (by omega), if_neg (by omega), hne]
      simp only [Bool.false_eq_true, if_false]
      split_ifs with h
      · exact Or.inl rfl
      · exact Or.inr rfl
    intro hcontra
    unfold submit at hcontra
    rcases hv with hv | hv <;> rw [hv] at hcontra <;> simp at hcontra

/-- Claim C1 witness: a five-character prompt is rejected with
`ValidationError` before any provider call, and a valid prompt with a known
model is not rejected with `ValidationError`. -/
theorem submit_validation_witness :
    submit "hi" ["gemini-pro"] (fun _ => ProviderOutcome.fail FailureKind.Timeout) =
        Except.error SubmitError.ValidationError ∧
    submit "What is 2 plus 2?" ["gemini-pro"]
        (fun _ => ProviderOutcome.fail FailureKind.Timeout) ≠
      Except.error SubmitError.ValidationError :=
  ⟨(submit_validation "hi" ["gemini-pro"] _).1 (Or.inl (by decide)),
   (submit_validation "What is 2 plus 2?" ["gemini-pro"] _).2
     ⟨by decide, by decide, "gemini-pro", by decide, by decide⟩⟩

/-- Claim C5: the orchestrator returns exactly one `ModelResponse` per
requested model id, in the input order, regardless of the per-model provider
outcomes (so no drops, no duplicates, and an order independent of which
provider responded first). -/
theorem compare_one_response_per_model (prompt_text : String)
    (model_ids : List String) (outcomes : String → ProviderOutcome) :
    (compare prompt_text model_ids outcomes).map (fun r => r.model_id) = model_ids ∧
    (compare prompt_text model_ids outcomes).length = model_ids.length := by
  constructor
  · unfold compare
    rw [List.map_map]
    have h : ∀ m ∈ model_ids,
        ((fun r : ModelResponse => r.model_id) ∘ fun m => invoke m (outcomes m)) m = m :=
      fun m _ => invoke_model_id m (outcomes m)
    rw [List.map_congr_left h]
    exact List.map_id model_ids
  · unfold compare
    rw [List.length_map]

/-- Claim C6: the evaluator is deterministic; evaluating the same prompt and
response pair twice yields identical accuracy, relevance, clarity,
hallucination-risk and trust values. -/
theorem evaluate_deterministic (p1 p2 r1 r2 : String) (hp : p1 = p2)
    (hr : r1 = r2) : evaluate p1 r1 = evaluate p2 r2 := by
  subst hp; subst hr; rfl

/-- Claim C6 witness: two runs of the evaluator on a concrete pair agree. -/
theorem evaluate_deterministic_witness :
    evaluate "What is 2 plus 2?" "The answer is four." =
      evaluate "What is 2 plus 2?" "The answer is four." :=
  evaluate_deterministic "What is 2 plus 2?" "What is 2 plus 2?"
    "The answer is four." "The answer is four." rfl rfl

/-- Claim C9: the clarity computation is total: its sentence-count
denominator is positive (no division by zero, also on single-sentence
responses), its value is bounded in `[0,100]` for every response text, and
a response text that is empty after trimming yields clarity 0 rather than
an error. -/
theorem clarity_total_and_bounded (response_text : String) :
    0 < max (sentencesOf response_text).length 1 ∧
    0 ≤ clarityScore response_text ∧ clarityScore response_text ≤ 100 ∧
    (trimmed response_text = [] → clarityScore response_text = 0) := by
  refine ⟨by omega, ?_, ?_, ?_⟩
  · unfold clarityScore
    split_ifs
    · norm_num
    · exact (clampScore_bounds _).1
  · unfold clarityScore
    split_ifs
    · norm_num
    · exact (clampScore_bounds _).2
  · intro h
    unfold clarityScore
    rw [if_pos h]

/-- Claim C9 witness: the empty response scores clarity 0, and a concrete
single-sentence response gets a well-defined clarity in `[0,100]`. -/
theorem clarity_total_and_bounded_witness :
    clarityScore "" = 0 ∧ 0 ≤ clarityScore "The answer is four." ∧
    clarityScore "The answer is four." ≤ 100 :=
  ⟨(clarity_total_and_bounded "").2.2.2 rfl,
   (clarity_total_and_bounded "The answer is four.").2.1,
   (clarity_total_and_bounded "The answer is four.").2.2.1⟩

/-- Claim C2: when all model calls of a session failed, the comparison
result carries the explicit no-successful-responses condition, contains zero
evaluations, designates no best model, and sets `is_best` nowhere. -/
theorem all_failed_no_fabricated_winner (prompt_text : String)
    (responses : List ModelResponse)
    (h : ∀ r ∈ responses, r.status = ResponseStatus.error) :
    (aggregate prompt_text responses).no_successful_responses = true ∧
    (aggregate prompt_text responses).evaluations = [] ∧
    (aggregate prompt_text responses).best_model = none ∧
    ∀ e ∈ (aggregate prompt_text responses).evaluations, e.is_best = false := by
  have hsucc : successfulResponses responses = [] := by
    unfold successfulResponses
    rw [List.filter_eq_nil_iff]
    intro r hr
    simp [h r hr]
  have hassign :
      assignRanks (sortEvaluations (evaluateAll prompt_text responses)) = [] := by
    unfold evaluateAll
    rw [hsucc]
    rfl
  refine ⟨?_, ?_, ?_, ?_⟩
  · show (assignRanks (sortEvaluations (evaluateAll prompt_text responses))).isEmpty = true
    rw [hassign]
    rfl
  · exact hassign
  · show (assignRanks (sortEvaluations (evaluateAll prompt_text responses))).head?.map
        (fun e => e.response.model_id) = none
    rw [hassign]
    rfl
  · intro e he
    rw [show (aggregate prompt_text responses).evaluations =
        assignRanks (sortEvaluations (evaluateAll prompt_text responses)) from rfl,
      hassign] at he
    exact absurd he (List.not_mem_nil e)

/-- A concrete failed response used by the witnesses. -/
def failedResponse : ModelResponse :=
  { model_id := "gemini-pro", response_text := "", latency := 0,
    token_count := 0, cost := 0, status := ResponseStatus.error,
    error_detail := some FailureKind.Timeout }

/-- Claim C2 witness: a session whose only model call timed out yields the
no-successful-responses result with no evaluations and no best model. -/
theorem all_failed_no_fabricated_winner_witness :
    (aggregate "What is 2 plus 2?" [failedResponse]).no_successful_responses = true ∧
    (aggregate "What is 2 plus 2?" [failedResponse]).evaluations = [] ∧
    (aggregate "What is 2 plus 2?" [failedResponse]).best_model = none ∧
    ∀ e ∈ (aggregate "What is 2 plus 2?" [failedResponse]).evaluations,
      e.is_best = false :=
  all_failed_no_fabricated_winner "What is 2 plus 2?" [failedResponse]
    (by intro r hr; rw [List.mem_singleton.mp hr]; rfl)

/-- Claim C3: the aggregate operation orders the evaluated responses by
trust score descending, breaking ties by ascending latency and then by
ascending model id, and assigns ranks 1..N following exactly that order
(the assignment is a pure function of the inputs, hence deterministic). -/
theorem aggregate_ranking_order (prompt_text : String)
    (responses : List ModelResponse)
    (h : ∃ r ∈ responses, r.status = ResponseStatus.success) :
    (aggregate prompt_text responses).evaluations.map (fun e => e.rank) =
      (List.range (aggregate prompt_text responses).evaluations.length).map
        (fun i => i + 1) ∧
    List.Pairwise (fun a b : RankedEvaluation =>
        b.scores.trust_score < a.scores.trust_score ∨
          (a.scores.trust_score = b.scores.trust_score ∧
            (a.response.latency < b.response.latency ∨
              (a.response.latency = b.response.latency ∧
                a.response.model_id ≤ b.response.model_id))))
      (aggregate prompt_text responses).evaluations := by
  constructor
  · show (assignRanks (sortEvaluations (evaluateAll prompt_text responses))).map
        (fun e => e.rank) = _
    rw [assignRanks_map_rank]
    have hlen : (sortEvaluations (evaluateAll prompt_text responses)).length =
        (aggregate prompt_text responses).evaluations.length := by
      rw [aggregate_evaluations_length]
      unfold sortEvaluations evaluateAll
      rw [List.length_insertionSort, List.length_map]
    rw [hlen]
  · have hs : List.Pairwise rankRel
        (sortEvaluations (evaluateAll prompt_text responses)) :=
      List.sorted_insertionSort rankRel (evaluateAll prompt_text responses)
    exact List.pairwise_map.mpr (pairwise_enum_snd hs)

/-- A concrete fast successful response used by the witnesses. -/
def okResponseA : ModelResponse :=
  { model_id := "gemini-pro", response_text := "4", latency := 1,
    token_count := 3, cost := 0, status := ResponseStatus.success,
    error_detail := none }

/-- A concrete slower successful response used by the witnesses. -/
def okResponseB : ModelResponse :=
  { model_id := "gpt-3.5-turbo", response_text := "The answer is four.",
    latency := 2, token_count := 8, cost := 0,
    status := ResponseStatus.success, error_detail := none }

/-- Claim C3 witness: the ranking order theorem applied to a concrete
two-response session. -/
theorem aggregate_ranking_order_witness :
    (aggregate "What is 2 plus 2?" [okResponseA, okResponseB]).evaluations.map
        (fun e => e.rank) =
      (List.range
          (aggregate "What is 2 plus 2?" [okResponseA, okResponseB]).evaluations.length).map
        (fun i => i + 1) ∧
    List.Pairwise (fun a b : RankedEvaluation =>
        b.scores.trust_score < a.scores.trust_score ∨
          (a.scores.trust_score = b.scores.trust_score ∧
            (a.response.latency < b.response.latency ∨
              (a.response.latency = b.response.latency ∧
                a.response.model_id ≤ b.response.model_id))))
      (aggregate "What is 2 plus 2?" [okResponseA, okResponseB]).evaluations :=
  aggregate_ranking_order "What is 2 plus 2?" [okResponseA, okResponseB]
    ⟨okResponseA, List.mem_cons_self okResponseA [okResponseB], rfl⟩

/-- Claim C4: for a session with at least one successful response, the
assigned ranks are exactly the contiguous sequence 1..N, where N is the
count of successful responses (no gaps, no repeats), and exactly one
evaluation carries `is_best = true`. -/
theorem aggregate_ranks_contiguous_unique_best (prompt_text : String)
    (responses : List ModelResponse)
    (h : 0 < (successfulResponses responses).length) :
    (aggregate prompt_text responses).evaluations.length =
      (successfulResponses responses).length ∧
    (aggregate prompt_text responses).evaluations.map (fun e => e.rank) =
      List.range' 1 (successfulResponses responses).length ∧
    ((aggregate prompt_text responses).evaluations.filter
        (fun e => e.is_best)).length = 1 := by
  have hsortlen : (sortEvaluations (evaluateAll prompt_text responses)).length =
      (successfulResponses responses).length := by
    unfold sortEvaluations evaluateAll
    rw [List.length_insertionSort, List.length_map]
  refine ⟨aggregate_evaluations_length prompt_text responses, ?_, ?_⟩
  · show (assignRanks (sortEvaluations (evaluateAll prompt_text responses))).map
        (fun e => e.rank) = _
    rw [assignRanks_map_rank, hsortlen, List.range'_eq_map_range]
    exact List.map_congr_left fun a _ => Nat.add_comm a 1
  · show ((assignRanks (sortEvaluations (evaluateAll prompt_text responses))).filter
        (fun e => e.is_best)).length = 1
    unfold assignRanks
    refine filter_firstFlag_length rankedOfIndexed (fun e => e.is_best)
      (fun p => rfl) _ ?_
    intro hnil
    rw [hnil] at hsortlen
    simp at hsortlen
    omega

/-- Claim C4 witness: the contiguous-ranks and unique-best theorem applied
to a concrete two-response session. -/
theorem aggregate_ranks_contiguous_unique_best_witness :
    (aggregate "What is 2 plus 2?" [okResponseA, okResponseB]).evaluations.length =
      (successfulResponses [okResponseA, okResponseB]).length ∧
    (aggregate "What is 2 plus 2?" [okResponseA, okResponseB]).evaluations.map
        (fun e => e.rank) =
      List.range' 1 (successfulResponses [okResponseA, okResponseB]).length ∧
    ((aggregate "What is 2 plus 2?" [okResponseA, okResponseB]).evaluations.filter
        (fun e => e.is_best)).length = 1 :=
  aggregate_ranks_contiguous_unique_best "What is 2 plus 2?"
    [okResponseA, okResponseB] (by decide)

/-- Claim C7: every evaluation of a session references an existing
successful response of that session, and responses with `status = error`
are never scored: no evaluation references them. -/
theorem evaluations_reference_successful (prompt_text : String)
    (responses : List ModelResponse) :
    (∀ e ∈ (aggregate prompt_text responses).evaluations,
        e.response.status = ResponseStatus.success ∧ e.response ∈ responses) ∧
    (∀ r ∈ responses, r.status = ResponseStatus.error →
        ∀ e ∈ (aggregate prompt_text responses).evaluations, e.response ≠ r) := by
  have key : ∀ e ∈ (aggregate prompt_text responses).evaluations,
      e.response.status = ResponseStatus.success ∧ e.response ∈ responses := by
    intro e he
    rw [show (aggregate prompt_text responses).evaluations =
        assignRanks (sortEvaluations (evaluateAll prompt_text responses)) from rfl] at he
    unfold assignRanks at he
    rcases List.mem_map.mp he with ⟨p, hp, rfl⟩
    have h2 : p.2 ∈ sortEvaluations (evaluateAll prompt_text responses) :=
      List.snd_mem_of_mem_enum hp
    have h3 : p.2 ∈ evaluateAll prompt_text responses :=
      (List.mem_insertionSort rankRel).mp h2
    unfold evaluateAll at h3
    rcases List.mem_map.mp h3 with ⟨r, hr, hre⟩
    have hr2 := List.mem_filter.mp hr
    have hresp : (rankedOfIndexed p).response = r := by
      rw [show (rankedOfIndexed p).response = p.2.1 from rfl, ← hre]
    constructor
    · rw [hresp]
      simpa using hr2.2
    · rw [hresp]
      exact hr2.1
  refine ⟨key, ?_⟩
  intro r _ hrerr e he heq
  have hsucc := (key e he).1
  rw [heq, hrerr] at hsucc
  exact ResponseStatus.noConfusion hsucc

/-- Claim C7 witness: in a concrete session with one successful and one
failed response, every evaluation references a successful session response
and the failed response is never referenced. -/
theorem evaluations_reference_successful_witness :
    (∀ e ∈ (aggregate "What is 2 plus 2?" [okResponseA, failedResponse]).evaluations,
        e.response.status = ResponseStatus.success ∧
          e.response ∈ [okResponseA, failedResponse]) ∧
    (∀ r ∈ [okResponseA, failedResponse], r.status = ResponseStatus.error →
        ∀ e ∈ (aggregate "What is 2 plus 2?" [okResponseA, failedResponse]).evaluations,
          e.response ≠ r) :=
  evaluations_reference_successful "What is 2 plus 2?" [okResponseA, failedResponse]

/-- Claim C8: a classified failure of a single provider call is recovered
locally into a `status = error` ModelResponse with `error_detail` populated;
the sibling calls still produce their entries (one response per requested
model), and a comparison that passes validation completes as a successful
`submit` outcome whatever the per-model outcomes (partial success is a
first-class successful result, not an exception). -/
theorem provider_failure_isolated (prompt_text : String)
    (model_ids : List String) (outcomes : String → ProviderOutcome) (i : ℕ)
    (h : i < model_ids.length)
    (hlen : i < (compare prompt_text model_ids outcomes).length)
    (k : FailureKind)
    (hk : outcomes (model_ids.get ⟨i, h⟩) = ProviderOutcome.fail k) :
    (compare prompt_text model_ids outcomes).length = model_ids.length ∧
    ((compare prompt_text model_ids outcomes).get ⟨i, hlen⟩).status =
      ResponseStatus.error ∧
    ((compare prompt_text model_ids outcomes).get ⟨i, hlen⟩).error_detail =
      some k ∧
    (∀ p sel, validateSubmit p sel = none →
        ∃ result, submit p sel outcomes = Except.ok result) := by
  have hget : (compare prompt_text model_ids outcomes).get ⟨i, hlen⟩ =
      invoke (model_ids.get ⟨i, h⟩) (outcomes (model_ids.get ⟨i, h⟩)) := by
    show (List.map (fun m => invoke m (outcomes m)) model_ids).get ⟨i, hlen⟩ = _
    rw [List.get_eq_getElem, List.getElem_map]
    rfl
  refine ⟨?_, ?_, ?_, ?_⟩
  · unfold compare
    rw [List.length_map]
  · rw [hget, hk]
    rfl
  · rw [hget, hk]
    rfl
  · intro p sel hv
    refine ⟨aggregate p (compare p sel outcomes), ?_⟩
    unfold submit
    rw [hv]

/-- Concrete per-model outcomes used by the witnesses: one provider times
out, the other succeeds. -/
def demoOutcomes : String → ProviderOutcome := fun m =>
  if m = "gemini-pro" then ProviderOutcome.fail FailureKind.Timeout
  else ProviderOutcome.ok "4" 1 3 0

/-- Claim C8 witness: with a concrete two-model fan-out in which
`gemini-pro` times out, the failed call yields a `status = error` entry with
`error_detail` populated, the sibling entry is still produced, and a
validated `submit` still completes successfully. -/
theorem provider_failure_isolated_witness :
    (compare "What is 2 plus 2?" ["gemini-pro", "gpt-3.5-turbo"] demoOutcomes).length =
      (["gemini-pro", "gpt-3.5-turbo"] : List String).length ∧
    ((compare "What is 2 plus 2?" ["gemini-pro", "gpt-3.5-turbo"] demoOutcomes).get
        ⟨0, by decide⟩).status = ResponseStatus.error ∧
    ((compare "What is 2 plus 2?" ["gemini-pro", "gpt-3.5-turbo"] demoOutcomes).get
        ⟨0, by decide⟩).error_detail = some FailureKind.Timeout ∧
    (∀ p sel, validateSubmit p sel = none →
        ∃ result, submit p sel demoOutcomes = Except.ok result) :=
  provider_failure_isolated "What is 2 plus 2?" ["gemini-pro", "gpt-3.5-turbo"]
    demoOutcomes 0 (by decide) (by decide) FailureKind.Timeout (by decide)

/-- Claim C10: for every non-empty response list, the Response Time & Cost
panel lists the responses in ascending response-time order, sizes each bar
as the response time divided by the maximum response time over the list, and
attaches the Fastest label to exactly one row, which is a row of minimum
response time. -/
theorem charts_speed_panel (responses : List AIResponseData)
    (h : responses ≠ []) :
    List.Pairwise (fun a b : SpeedPanelEntry =>
        a.resp.response_time ≤ b.resp.response_time) (speedPanel responses) ∧
    (∀ e ∈ speedPanel responses,
        e.barFraction = e.resp.response_time / maxResponseTime responses) ∧
    ((speedPanel responses).filter (fun e => e.fastest)).length = 1 ∧
    (∀ e ∈ speedPanel responses, e.fastest = true →
        e.resp ∈ responses ∧
          ∀ r ∈ responses, e.resp.response_time ≤ r.response_time) := by
  have hsorted : List.Pairwise speedLE (responses.insertionSort speedLE) :=
    List.sorted_insertionSort speedLE responses
  have hlen : (responses.insertionSort speedLE).length = responses.length :=
    List.length_insertionSort speedLE responses
  have hne : responses.insertionSort speedLE ≠ [] := by
    intro hnil
    rw [hnil] at hlen
    exact h (List.length_eq_zero.mp hlen.symm)
  refine ⟨?_, ?_, ?_, ?_⟩
  · exact List.pairwise_map.mpr (pairwise_enum_snd hsorted)
  · intro e he
    unfold speedPanel at he
    rcases List.mem_map.mp he with ⟨p, _, rfl⟩
    rfl
  · exact filter_firstFlag_length (speedEntryOf (maxResponseTime responses))
      (fun e => e.fastest) (fun _ => rfl) _ hne
  · intro e he hf
    rcases firstFlag_is_head (speedEntryOf (maxResponseTime responses))
        (fun e => e.fastest) (fun _ => rfl) (responses.insertionSort speedLE)
        e he hf with ⟨a, as, hl, rfl⟩
    have hamem : a ∈ responses.insertionSort speedLE := by
      rw [hl]
      exact List.mem_cons_self a as
    constructor
    · show a ∈ responses
      exact (List.mem_insertionSort speedLE).mp hamem
    · intro r hr
      have hr2 : r ∈ a :: as := by
        rw [← hl]
        exact (List.mem_insertionSort speedLE).mpr hr
      show a.response_time ≤ r.response_time
      rcases List.mem_cons.mp hr2 with rfl | hr3
      · exact le_rfl
      · rw [hl] at hsorted
        exact (List.pairwise_cons.mp hsorted).1 r hr3

/-- Concrete evaluation scores used by the chart witnesses. -/
def demoScores : EvaluationScores :=
  { accuracy := 80, relevance := 75, clarity := 70, hallucination_risk := 10,
    trust_score := 77 }

/-- A concrete fast chart response used by the witnesses. -/
def chartRespA : AIResponseData :=
  { model := "gpt-4", response_text := "4", response_time := 1,
    token_count := 3, cost := 0, evaluation_scores := demoScores,
    ranking := 1, is_best := true }

/-- A concrete slower chart response used by the witnesses. -/
def chartRespB : AIResponseData :=
  { model := "gemini-pro", response_text := "The answer is four.",
    response_time := 2, token_count := 8, cost := 0,
    evaluation_scores := demoScores, ranking := 2, is_best := false }

/-- Claim C10 witness: the speed-panel theorem applied to a concrete
two-response list. -/
theorem charts_speed_panel_witness :
    List.Pairwise (fun a b : SpeedPanelEntry =>
        a.resp.response_time ≤ b.resp.response_time)
      (speedPanel [chartRespA, chartRespB]) ∧
    (∀ e ∈ speedPanel [chartRespA, chartRespB],
        e.barFraction =
          e.resp.response_time / maxResponseTime [chartRespA, chartRespB]) ∧
    ((speedPanel [chartRespA, chartRespB]).filter (fun e => e.fastest)).length = 1 ∧
    (∀ e ∈ speedPanel [chartRespA, chartRespB], e.fastest = true →
        e.resp ∈ [chartRespA, chartRespB] ∧
          ∀ r ∈ [chartRespA, chartRespB],
            e.resp.response_time ≤ r.response_time) :=
  charts_speed_panel [chartRespA, chartRespB] (by simp)

end MaiPaep
